import Mathlib

/-!
Shallow embedding of the ProGear Sales MCP server token-validation middleware
(Express middleware validateToken, together with the module-level JWKS setup),
and proofs of the specification claims about it.

Source shape being embedded:

  const OKTA_ISSUER = process.env.OKTA_ISSUER || '';
  const OKTA_AUDIENCE = process.env.OKTA_CUSTOM_AUTH_SERVER_AUDIENCE || '';
  let jwks = null;
  if (OKTA_ISSUER) jwks = createRemoteJWKSet(new URL(OKTA_ISSUER + "/v1/keys"));

  async function validateToken(req, res, next):
    authHeader = req.headers.authorization
    if (!authHeader || !authHeader.startsWith("Bearer ")):
      if (NODE_ENV == "development") return next()
      return res.status(401).json({ error: "Missing authorization header" })
    token = authHeader.split(" ")[1]
    if (token.startsWith("demo-token")) return next()
    if (!jwks) return next()
    try:
      payload = await jwtVerify(token, jwks, { issuer: OKTA_ISSUER, audience: OKTA_AUDIENCE })
      req.user = payload; next()
    catch: return res.status(401).json({ error: "Invalid token" })
-/

namespace CourtEdge

/-- ECMAScript semantics of s.startsWith(p): p is a literal character-prefix
of s.  Embeds the calls authHeader.startsWith("Bearer ") and
token.startsWith("demo-token") from the source. -/
def jsStartsWith (s p : String) : Bool :=
  List.isPrefixOf p.data s.data

/-- Worker for jsSplit: walks the character list, accumulating the current
chunk (in reverse); a separator character ends the current chunk. -/
def jsSplitAux (sep : Char) : List Char → List Char → List String
  | [], acc => [String.mk acc.reverse]
  | c :: cs, acc =>
    if c = sep then String.mk acc.reverse :: jsSplitAux sep cs []
    else jsSplitAux sep cs (c :: acc)

/-- ECMAScript semantics of s.split(sep) for a one-character separator:
splits at every occurrence of sep, keeping empty chunks.  Embeds the call
authHeader.split(" ") from the source. -/
def jsSplit (sep : Char) (s : String) : List String :=
  jsSplitAux sep s.data []

/-- Process-wide configuration read from the environment in the source:
OKTA_ISSUER, OKTA_CUSTOM_AUTH_SERVER_AUDIENCE (both default to the empty
string) and NODE_ENV. -/
structure Config where
  oktaIssuer : String
  oktaAudience : String
  nodeEnv : String
deriving DecidableEq, Repr

/-- A decoded token claim set, as returned by a successful jwtVerify call:
the subject claim plus the remaining claims as a name-value mapping.  The
source logs payload.sub and attaches the whole payload to req.user. -/
structure Payload where
  sub : String
  extra : List (String × String)
deriving DecidableEq, Repr

/-- The distinct failure causes of the jose jwtVerify call that the source
wraps in a try/catch: invalid signature, issuer claim not matching the
configured issuer, audience claim not matching the configured audience,
expired token, network failure while fetching the remote key set, and a
token that is not even parseable.  The catch block in the source receives
all of these as a single thrown error. -/
inductive VerifyError where
  | badSignature
  | wrongIssuer
  | wrongAudience
  | expired
  | networkFailure
  | malformed
deriving DecidableEq, Repr

/-- Observable outcome of one run of the middleware on one request: either
the downstream handler is invoked (next), carrying the claim set attached
to req.user when there is one, or the response is terminated with an HTTP
status and a JSON error body, and no downstream handler runs. -/
inductive Outcome where
  | next (user : Option Payload)
  | reject (status : Nat) (error : String)
deriving DecidableEq, Repr

/-- Module-level jwks initialisation (source lines 22 to 26): jwks stays
null unless OKTA_ISSUER is truthy (a non-empty string), in which case a
remote JWKS resolver bound to the URL OKTA_ISSUER + "/v1/keys" is created.
The resolver is represented by the URL it is bound to. -/
def initJwks (cfg : Config) : Option String :=
  if cfg.oktaIssuer != "" then some (cfg.oktaIssuer ++ "/v1/keys") else none

/-- The validateToken middleware (source lines 50 to 88) as a function of
the configuration, the module-level jwks value, the jwtVerify behaviour and
the Authorization header.  The verify argument abstracts the library call
jwtVerify(token, jwks, issuer empty OKTA_ISSUER, audience OKTA_AUDIENCE):
Except.ok is its successful return with the decoded payload, Except.error
is any thrown verification error, which the source catches.  The
authHeader argument is none when the header is absent; the JS falsiness
test on the header coincides with the startsWith test because the empty
string does not start with "Bearer ". -/
def validateToken (cfg : Config) (jwks : Option String)
    (verify : String → Except VerifyError Payload)
    (authHeader : Option String) : Outcome :=
  let authMissing : Bool :=
    match authHeader with
    | none => true
    | some h => !(jsStartsWith h "Bearer ")
  if authMissing then
    if cfg.nodeEnv == "development" then Outcome.next none
    else Outcome.reject 401 "Missing authorization header"
  else
    let token := (jsSplit ' ' (authHeader.getD "")).getD 1 ""
    if jsStartsWith token "demo-token" then Outcome.next none
    else
      match jwks with
      | none => Outcome.next none
      | some _ =>
        match verify token with
        | Except.ok payload => Outcome.next (some payload)
        | Except.error _ => Outcome.reject 401 "Invalid token"

/-- The mutable module-level state of the server process that validateToken
can see: the jwks binding established at module initialisation. -/
structure ServerState where
  jwks : Option String
deriving DecidableEq, Repr

/-- The module-level state right after initialisation (source lines 22 to
26). -/
def initState (cfg : Config) : ServerState :=
  { jwks := initJwks cfg }

/-- validateToken as a state-passing computation over the module-level
state: the middleware reads the jwks binding and contains no assignment to
it or to any other module-level variable, so the state it returns is the
state it was given. -/
def validateTokenM (cfg : Config)
    (verify : String → Except VerifyError Payload)
    (authHeader : Option String) (st : ServerState) : Outcome × ServerState :=
  (validateToken cfg st.jwks verify authHeader, st)

/-! Auxiliary lemmas about the embedded JS string primitives. -/

theorem mk_data (s : String) : String.mk s.data = s := by
  cases s
  rfl

theorem isPrefixOf_append (p l : List Char) :
    List.isPrefixOf p (p ++ l) = true := by
  induction p with
  | nil => simp [List.isPrefixOf]
  | cons a as ih => simp [List.isPrefixOf, ih]

theorem takeWhile_of_all (l : List Char) (h : ∀ c ∈ l, c ≠ ' ') :
    l.takeWhile (fun c => c != ' ') = l := by
  induction l with
  | nil => rfl
  | cons a as ih =>
    have ha : a ≠ ' ' := h a (by simp)
    simp [List.takeWhile_cons, ha, ih fun c hc => h c (by simp [hc])]

theorem isPrefixOf_takeWhile (p : List Char) (hp : ∀ c ∈ p, c ≠ ' ') :
    ∀ l : List Char, List.isPrefixOf p l = true →
      List.isPrefixOf p (l.takeWhile (fun c => c != ' ')) = true := by
  induction p with
  | nil => intro l _; simp [List.isPrefixOf]
  | cons a as ih =>
    intro l h
    cases l with
    | nil => simp [List.isPrefixOf] at h
    | cons b bs =>
      simp only [List.isPrefixOf, Bool.and_eq_true, beq_iff_eq] at h
      obtain ⟨hab, hrest⟩ := h
      have hb : b ≠ ' ' := hab ▸ hp a (by simp)
      have has : ∀ c ∈ as, c ≠ ' ' := fun c hc => hp c (by simp [hc])
      simp [List.takeWhile_cons, hb, List.isPrefixOf, hab,
        ih has bs hrest]

theorem jsSplitAux_getD_zero (sep : Char) (cs : List Char) :
    ∀ acc : List Char, (jsSplitAux sep cs acc)[0]?.getD "" =
      String.mk (acc.reverse ++ cs.takeWhile (fun c => c != sep)) := by
  induction cs with
  | nil => intro acc; simp [jsSplitAux]
  | cons c cs ih =>
    intro acc
    by_cases hc : c = sep
    · simp [jsSplitAux, hc]
    · rw [show jsSplitAux sep (c :: cs) acc = jsSplitAux sep cs (c :: acc) by
        simp [jsSplitAux, hc], ih (c :: acc)]
      simp [List.takeWhile_cons, hc]

theorem jsSplit_bearer (t : String) :
    jsSplit ' ' ("Bearer " ++ t) = "Bearer" :: jsSplitAux ' ' t.data [] := by
  have hdata : ("Bearer " ++ t).data =
      'B' :: 'e' :: 'a' :: 'r' :: 'e' :: 'r' :: ' ' :: t.data := by
    rw [String.data_append]
    rfl
  rw [jsSplit, hdata]
  simp [jsSplitAux]

theorem extractTok_bearer (t : String) :
    (jsSplit ' ' ("Bearer " ++ t))[1]?.getD "" =
      String.mk (t.data.takeWhile (fun c => c != ' ')) := by
  rw [jsSplit_bearer]
  simpa using jsSplitAux_getD_zero ' ' t.data []

theorem extractTok_nospace (t : String) (h : ∀ c ∈ t.data, c ≠ ' ') :
    (jsSplit ' ' ("Bearer " ++ t))[1]?.getD "" = t := by
  rw [extractTok_bearer, takeWhile_of_all t.data h, mk_data]

theorem extractTok_demo (t : String) (h : jsStartsWith t "demo-token" = true) :
    jsStartsWith ((jsSplit ' ' ("Bearer " ++ t))[1]?.getD "") "demo-token" = true := by
  rw [extractTok_bearer]
  unfold jsStartsWith at h ⊢
  exact isPrefixOf_takeWhile _ (by decide) _ h

theorem bearer_startsWith (t : String) :
    jsStartsWith ("Bearer " ++ t) "Bearer " = true := by
  unfold jsStartsWith
  rw [String.data_append]
  exact isPrefixOf_append _ _

/-! Concrete fixtures used by witnesses and counterexamples. -/

/-- A deployment with no issuer configured (OKTA_ISSUER left empty) and not
in development mode. -/
def cfgNoIssuer : Config :=
  { oktaIssuer := "", oktaAudience := "", nodeEnv := "production" }

/-- A deployment with an issuer and audience configured, not in development
mode. -/
def cfgOkta : Config :=
  { oktaIssuer := "https://example.okta.com/oauth2/default",
    oktaAudience := "api://progear", nodeEnv := "production" }

/-- A development-mode deployment with no issuer configured. -/
def cfgDev : Config :=
  { oktaIssuer := "", oktaAudience := "", nodeEnv := "development" }

/-- A jwtVerify behaviour under which every presented token fails signature
verification. -/
def badSigVerify : String → Except VerifyError Payload :=
  fun _ => Except.error VerifyError.badSignature

/-- A sample decoded claim set with a subject. -/
def payloadEx : Payload :=
  { sub := "00u1abcd", extra := [("iss", "https://example.okta.com/oauth2/default")] }

/-- A jwtVerify behaviour under which every presented token verifies with
the sample claim set. -/
def okVerify : String → Except VerifyError Payload :=
  fun _ => Except.ok payloadEx

/-! Claim theorems. -/

/-- C1: if no issuer is configured, so the module-level jwks stays null,
then every request whose Authorization header starts with "Bearer " is
admitted by validateToken (the downstream handler is invoked, with no
claims attached), whatever the token content is: verification is treated
as disabled, not as an error. -/
theorem validateToken_no_issuer_admits_all (cfg : Config)
    (verify : String → Except VerifyError Payload) (h : String)
    (hiss : cfg.oktaIssuer = "") (hb : jsStartsWith h "Bearer " = true) :
    validateToken cfg (initJwks cfg) verify (some h) = Outcome.next none := by
  have hj : initJwks cfg = none := by simp [initJwks, hiss]
  unfold validateToken
  simp [hb, hj]

/-- Witness for C1 at a concrete garbage token under the no-issuer
configuration. -/
theorem validateToken_no_issuer_admits_all_witness :
    validateToken cfgNoIssuer (initJwks cfgNoIssuer) badSigVerify
      (some "Bearer totally-garbage") = Outcome.next none :=
  validateToken_no_issuer_admits_all cfgNoIssuer badSigVerify
    "Bearer totally-garbage" rfl (by decide)

/-- C2: a request whose Bearer token literally starts with "demo-token" is
admitted by validateToken regardless of the jwtVerify behaviour, the jwks
state and the configuration (the bypass is unconditionally present in the
code), and the downstream handler runs with no verified claims attached. -/
theorem validateToken_demo_bypass (cfg : Config) (jwks : Option String)
    (verify : String → Except VerifyError Payload) (t : String)
    (hd : jsStartsWith t "demo-token" = true) :
    validateToken cfg jwks verify (some ("Bearer " ++ t)) = Outcome.next none := by
  unfold validateToken
  simp [bearer_startsWith, extractTok_demo t hd]

/-- Witness for C2 at a concrete demo token under the configured
deployment with an always-failing verifier. -/
theorem validateToken_demo_bypass_witness :
    validateToken cfgOkta (initJwks cfgOkta) badSigVerify
      (some ("Bearer " ++ "demo-token-12345")) = Outcome.next none :=
  validateToken_demo_bypass cfgOkta (initJwks cfgOkta) badSigVerify
    "demo-token-12345" (by decide)

/-- C5: a request with no Authorization header, outside development mode,
is rejected with HTTP 401 and the JSON error body naming a missing
authorization header, and no downstream handler is invoked. -/
theorem validateToken_missing_header_rejected (cfg : Config)
    (jwks : Option String) (verify : String → Except VerifyError Payload)
    (hdev : cfg.nodeEnv ≠ "development") :
    validateToken cfg jwks verify none =
      Outcome.reject 401 "Missing authorization header" := by
  unfold validateToken
  simp [hdev]

/-- Witness for C5 under the configured production deployment. -/
theorem validateToken_missing_header_rejected_witness :
    validateToken cfgOkta (initJwks cfgOkta) badSigVerify none =
      Outcome.reject 401 "Missing authorization header" :=
  validateToken_missing_header_rejected cfgOkta (initJwks cfgOkta)
    badSigVerify (by decide)

/-- C6: a request with no Authorization header, in development mode, is
admitted by validateToken with no identity context attached: the
downstream handler runs and sees no user claims. -/
theorem validateToken_dev_mode_anonymous (cfg : Config)
    (jwks : Option String) (verify : String → Except VerifyError Payload)
    (hdev : cfg.nodeEnv = "development") :
    validateToken cfg jwks verify none = Outcome.next none := by
  unfold validateToken
  simp [hdev]

/-- Witness for C6 under the development deployment. -/
theorem validateToken_dev_mode_anonymous_witness :
    validateToken cfgDev (initJwks cfgDev) badSigVerify none =
      Outcome.next none :=
  validateToken_dev_mode_anonymous cfgDev (initJwks cfgDev) badSigVerify rfl

/-- C10: an Authorization header that is present but does not start with
"Bearer " leads to exactly the same outcome as a missing header, for every
configuration, jwks state and verifier; in particular a demo-prefixed
credential sent without the Bearer scheme is not admitted through the demo
bypass. -/
theorem validateToken_non_bearer_like_missing (cfg : Config)
    (jwks : Option String) (verify : String → Except VerifyError Payload)
    (h : String) (hb : jsStartsWith h "Bearer " = false) :
    validateToken cfg jwks verify (some h) =
      validateToken cfg jwks verify none := by
  unfold validateToken
  simp [hb]

/-- Witness for C10: the bare credential "demo-token-12345" sent as the
whole header, without the Bearer scheme, under the production deployment;
by C10 and evaluation it is rejected exactly like a missing header. -/
theorem validateToken_non_bearer_like_missing_witness :
    validateToken cfgOkta (initJwks cfgOkta) badSigVerify
        (some "demo-token-12345") =
      validateToken cfgOkta (initJwks cfgOkta) badSigVerify none ∧
    validateToken cfgOkta (initJwks cfgOkta) badSigVerify none =
      Outcome.reject 401 "Missing authorization header" :=
  ⟨validateToken_non_bearer_like_missing cfgOkta (initJwks cfgOkta)
      badSigVerify "demo-token-12345" (by decide),
   by decide⟩

/-- C3 counterexample: the claim as stated is false on the code.  First,
with no issuer configured, a well-formed but incorrectly signed token
(every token fails signature verification under badSigVerify) is admitted,
not rejected.  Second, even with an issuer configured, a well-formed,
incorrectly signed token whose first compact segment happens to start with
"demo-token" is admitted through the demo bypass. -/
theorem validateToken_bad_sig_admitted_cex :
    validateToken cfgNoIssuer (initJwks cfgNoIssuer) badSigVerify
        (some "Bearer aaaa.bbbb.cccc") = Outcome.next none ∧
    validateToken cfgOkta (initJwks cfgOkta) badSigVerify
        (some "Bearer demo-tokenAAA.bbbb.cccc") = Outcome.next none := by
  constructor <;> decide

/-- C3 amended: when a key set is configured (jwks is non-null) and the
token does not start with the demo prefix, a request whose token fails
signature verification, or verifies but carries an audience not matching
the configured audience, is rejected with HTTP 401 and the "Invalid token"
body, and no downstream handler is invoked. -/
theorem validateToken_verify_failure_rejected (cfg : Config) (u : String)
    (verify : String → Except VerifyError Payload) (t : String)
    (hsp : ∀ c ∈ t.data, c ≠ ' ')
    (hd : jsStartsWith t "demo-token" = false)
    (hv : verify t = Except.error VerifyError.badSignature ∨
          verify t = Except.error VerifyError.wrongAudience) :
    validateToken cfg (some u) verify (some ("Bearer " ++ t)) =
      Outcome.reject 401 "Invalid token" := by
  unfold validateToken
  simp only [Bool.not_eq_eq_eq_not, Bool.not_true, Option.getD_some,
    bearer_startsWith, Bool.false_eq_true, if_false, List.getD_eq_getElem?_getD,
    extractTok_nospace t hsp, hd]
  rcases hv with hv | hv <;> rw [hv]

/-- Witness for the amended C3 at a concrete incorrectly signed token under
the configured deployment. -/
theorem validateToken_verify_failure_rejected_witness :
    validateToken cfgOkta
        (some "https://example.okta.com/oauth2/default/v1/keys") badSigVerify
        (some ("Bearer " ++ "eyJhbGc.eyJzdWI.c2ln")) =
      Outcome.reject 401 "Invalid token" :=
  validateToken_verify_failure_rejected cfgOkta
    "https://example.okta.com/oauth2/default/v1/keys" badSigVerify
    "eyJhbGc.eyJzdWI.c2ln" (by decide) (by decide) (Or.inl rfl)

/-- C4: when a key set is configured, the token does not start with the
demo prefix, and jwtVerify succeeds on the token (it is correctly signed
with issuer and audience matching the configured values), validateToken
admits the request and attaches exactly the decoded claim set, subject
included, to the request context handed to the downstream handler. -/
theorem validateToken_valid_token_attaches_claims (cfg : Config) (u : String)
    (verify : String → Except VerifyError Payload) (t : String) (p : Payload)
    (hsp : ∀ c ∈ t.data, c ≠ ' ')
    (hd : jsStartsWith t "demo-token" = false)
    (hv : verify t = Except.ok p) :
    validateToken cfg (some u) verify (some ("Bearer " ++ t)) =
      Outcome.next (some p) := by
  unfold validateToken
  simp only [Bool.not_eq_eq_eq_not, Bool.not_true, Option.getD_some,
    bearer_startsWith, Bool.false_eq_true, if_false, List.getD_eq_getElem?_getD,
    extractTok_nospace t hsp, hd]
  rw [hv]

/-- Witness for C4 at a concrete token accepted by the verifier: the
sample claim set, with its subject, is attached. -/
theorem validateToken_valid_token_attaches_claims_witness :
    validateToken cfgOkta
        (some "https://example.okta.com/oauth2/default/v1/keys") okVerify
        (some ("Bearer " ++ "eyJhbGc.eyJzdWI.c2ln")) =
      Outcome.next (some payloadEx) ∧ payloadEx.sub = "00u1abcd" :=
  ⟨validateToken_valid_token_attaches_claims cfgOkta
      "https://example.okta.com/oauth2/default/v1/keys" okVerify
      "eyJhbGc.eyJzdWI.c2ln" payloadEx (by decide) (by decide) rfl,
   rfl⟩

/-- C7: whichever verification error subtype jwtVerify raises (bad
signature, wrong issuer, wrong audience, expired token, network failure
fetching keys, or a malformed token), validateToken produces the one same
rejection outcome, HTTP 401 with the generic "Invalid token" body; the
error subtype is not visible in the outcome. -/
theorem validateToken_errors_collapse (cfg : Config) (u : String)
    (verify : String → Except VerifyError Payload) (t : String)
    (e : VerifyError)
    (hsp : ∀ c ∈ t.data, c ≠ ' ')
    (hd : jsStartsWith t "demo-token" = false)
    (hv : verify t = Except.error e) :
    validateToken cfg (some u) verify (some ("Bearer " ++ t)) =
      Outcome.reject 401 "Invalid token" := by
  unfold validateToken
  simp only [Bool.not_eq_eq_eq_not, Bool.not_true, Option.getD_some,
    bearer_startsWith, Bool.false_eq_true, if_false, List.getD_eq_getElem?_getD,
    extractTok_nospace t hsp, hd]
  rw [hv]

/-- Witness for C7 at a concrete token with a network-failure verifier. -/
theorem validateToken_errors_collapse_witness :
    validateToken cfgOkta
        (some "https://example.okta.com/oauth2/default/v1/keys")
        (fun _ => Except.error VerifyError.networkFailure)
        (some ("Bearer " ++ "eyJhbGc.eyJzdWI.c2ln")) =
      Outcome.reject 401 "Invalid token" :=
  validateToken_errors_collapse cfgOkta
    "https://example.okta.com/oauth2/default/v1/keys"
    (fun _ => Except.error VerifyError.networkFailure)
    "eyJhbGc.eyJzdWI.c2ln" VerifyError.networkFailure
    (by decide) (by decide) rfl

/-- C8 counterexample: the claim as stated is false on the code, which
establishes the key-set resolver eagerly at module initialisation, not
lazily on first use of validateToken.  Concretely: right after module
initialisation of the configured deployment, before any validation has
run, the resolver already exists and is bound to the issuer joined with
"/v1/keys"; and conversely a validateToken call starting from a state with
no resolver does not establish one. -/
theorem validateToken_resolver_eager_cex :
    (initState cfgOkta).jwks =
      some "https://example.okta.com/oauth2/default/v1/keys" ∧
    (validateTokenM cfgOkta badSigVerify (some "Bearer aaaa.bbbb.cccc")
        { jwks := none }).2 = { jwks := none } := by
  constructor <;> rfl

/-- C8 amended: the key-set resolver is established once, at module
initialisation, whenever an issuer is configured, and is bound to the
configured issuer joined with "/v1/keys"; every validateToken call reads
that module-level binding and leaves the whole module-level state
unchanged, so validations reuse the same resolver and cause no other
observable state change. -/
theorem validateToken_state_frame (cfg : Config)
    (verify : String → Except VerifyError Payload)
    (authHeader : Option String) (st : ServerState) :
    (validateTokenM cfg verify authHeader st).2 = st ∧
    (cfg.oktaIssuer ≠ "" →
      (initState cfg).jwks = some (cfg.oktaIssuer ++ "/v1/keys")) := by
  refine ⟨rfl, fun hi => ?_⟩
  simp [initState, initJwks, hi]

/-- Witness for the amended C8 under the configured deployment. -/
theorem validateToken_state_frame_witness :
    (validateTokenM cfgOkta badSigVerify none (initState cfgOkta)).2 =
      initState cfgOkta ∧
    (initState cfgOkta).jwks = some (cfgOkta.oktaIssuer ++ "/v1/keys") :=
  ⟨(validateToken_state_frame cfgOkta badSigVerify none (initState cfgOkta)).1,
   (validateToken_state_frame cfgOkta badSigVerify none
      (initState cfgOkta)).2 (by decide)⟩

/-- C9: validation is deterministic and stateless per call apart from the
shared module-level key-set binding: running validateToken twice in
sequence on the same header, configuration and verifier, threading the
module state through, yields the same decision both times, and the state
after each call is the state before it. -/
theorem validateToken_deterministic (cfg : Config)
    (verify : String → Except VerifyError Payload)
    (authHeader : Option String) (st : ServerState) :
    (validateTokenM cfg verify authHeader
        ((validateTokenM cfg verify authHeader st).2)).1 =
      (validateTokenM cfg verify authHeader st).1 ∧
    (validateTokenM cfg verify authHeader st).2 = st :=
  ⟨rfl, rfl⟩

end CourtEdge
